import Mathlib

/-!
Verification of the k8s-netinspect diagnostic engine (Rust) against its
natural-language specification, via a shallow embedding in Lean 4.

The embedding follows the source files:
  * src/errors.rs      — error taxonomy, exit codes, From conversions
  * src/validation.rs  — input/environment validation and the permission prober
  * src/commands/mod.rs — diagnose, test_pod, CNI detection, connectivity retries
  * src/main.rs        — command dispatch

External effects (the kube control-plane client, the filesystem, the process
environment, HTTP probes, timeouts) are modelled as explicit oracle/state
structures; each network-bound operation additionally records a probe in a
trace so ordering and short-circuit properties can be stated.
-/

namespace NetInspect

/-! ## Error taxonomy (src/errors.rs) -/

/-- The variants of kube::Error that errors.rs distinguishes in its
From conversion: Api carries an ErrorResponse with a status code and a
message; the remaining distinguished variants carry only displayable text,
and Other stands for the catch-all arm of the match. -/
inductive KubeError where
  | Api : Nat → String → KubeError
  | HttpError : String → KubeError
  | Auth : String → KubeError
  | Discovery : String → KubeError
  | Other : String → KubeError
deriving DecidableEq, Repr

/-- The Display rendering of a kube error, used where the Rust code
interpolates the error into a format string. -/
def KubeError.render : KubeError → String
  | .Api _ m => m
  | .HttpError m => m
  | .Auth m => m
  | .Discovery m => m
  | .Other m => m

/-- NetInspectError from src/errors.rs: the closed set of error kinds,
each carrying a message. -/
inductive NetInspectError where
  | KubernetesConnection : String → NetInspectError
  | PermissionDenied : String → NetInspectError
  | Configuration : String → NetInspectError
  | NetworkConnectivity : String → NetInspectError
  | InvalidInput : String → NetInspectError
  | ResourceNotFound : String → NetInspectError
  | Timeout : String → NetInspectError
  | Runtime : String → NetInspectError
deriving DecidableEq, Repr

namespace NetInspectError

/-- exit_code from src/errors.rs lines 60-71. -/
def exit_code : NetInspectError → Int
  | KubernetesConnection _ => 3
  | PermissionDenied _ => 5
  | Configuration _ => 2
  | NetworkConnectivity _ => 4
  | InvalidInput _ => 2
  | ResourceNotFound _ => 4
  | Timeout _ => 4
  | Runtime _ => 1

/-- impl From kube::Error for NetInspectError (src/errors.rs lines 145-181):
Api 401/403 map to PermissionDenied, Api 404 to ResourceNotFound, other Api
codes to KubernetesConnection; HttpError and Discovery to
KubernetesConnection; Auth to PermissionDenied; the catch-all to
KubernetesConnection. -/
def fromKube : KubeError → NetInspectError
  | .Api code msg =>
    if code = 401 ∨ code = 403 then
      PermissionDenied ("Kubernetes API access denied: " ++ msg)
    else if code = 404 then
      ResourceNotFound ("Resource not found: " ++ msg)
    else
      KubernetesConnection ("Kubernetes API error: " ++ msg)
  | .HttpError m => KubernetesConnection ("HTTP error connecting to Kubernetes: " ++ m)
  | .Auth m => PermissionDenied ("Authentication failed: " ++ m)
  | .Discovery m => KubernetesConnection ("Service discovery failed: " ++ m)
  | .Other m => KubernetesConnection ("Kubernetes client error: " ++ m)

end NetInspectError

/-- Whether an Except value is a success. -/
def isOkE {ε α : Type} : Except ε α → Bool
  | .ok _ => true
  | .error _ => false

/-! ## CNI detection (src/commands/mod.rs, detect_cni, lines 172-230) -/

/-- NodeSystemInfo as used by detect_cni: only the container runtime
version string is inspected. -/
structure NodeInfo where
  container_runtime_version : String
deriving DecidableEq, Repr

/-- NodeStatus as used by detect_cni: only node_info is inspected. -/
structure NodeStatus where
  node_info : Option NodeInfo
deriving DecidableEq, Repr

/-- Node metadata as used by detect_cni: only the annotation KEYS are
inspected (annotations.keys() in the source), so the map is embedded as
its list of keys, in iteration order. -/
structure NodeMetadata where
  annotations : Option (List String)
deriving DecidableEq, Repr

/-- A Node as consumed by detect_cni. -/
structure Node where
  metadata : NodeMetadata
  status : Option NodeStatus
deriving DecidableEq, Repr

/-- Whether the first list of characters begins with the second. -/
def charsStartWith : List Char → List Char → Bool
  | _, [] => true
  | [], _ :: _ => false
  | a :: as, b :: bs => a == b && charsStartWith as bs

/-- Whether the first list of characters contains the second as a
contiguous run. -/
def charsContain (haystack needle : List Char) : Bool :=
  match haystack with
  | [] => charsStartWith [] needle
  | _ :: rest => charsStartWith haystack needle || charsContain rest needle

/-- Rust str::contains for a literal substring: some contiguous slice of
the haystack equals the needle. -/
def strContains (haystack needle : String) : Bool :=
  charsContain haystack.toList needle.toList

/-- The entry a single node contributes to detected_cnis in detect_cni:
nodes lacking status or node_info contribute nothing; a node whose
annotation keys match one of the markers contributes the canonical name
(the continue in the source makes the runtime check unreachable then);
otherwise the container runtime string is inspected for the generic
fallback. -/
def cniEntry (node : Node) : Option String :=
  match node.status with
  | none => none
  | some status =>
    match status.node_info with
    | none => none
    | some node_info =>
      let runtime := node_info.container_runtime_version
      let annotationName : Option String :=
        match node.metadata.annotations with
        | some keys =>
          if keys.any (fun k => strContains k "calico" || strContains k "projectcalico") then
            some "Calico"
          else if keys.any (fun k => strContains k "flannel") then
            some "Flannel"
          else if keys.any (fun k => strContains k "weave") then
            some "Weave Net"
          else if keys.any (fun k => strContains k "cilium") then
            some "Cilium"
          else none
        | none => none
      match annotationName with
      | some name => some name
      | none =>
        if strContains runtime "containerd" then some "Generic CNI (containerd)"
        else if strContains runtime "docker" then some "Generic CNI (docker)"
        else none

/-- The scan over an already-fetched node list inside detect_cni
(src/commands/mod.rs lines 175-229): empty list yields the descriptive
string; otherwise each node pushes at most one entry into detected_cnis
and the first pushed entry is returned, with "Unknown CNI" when nothing
was pushed. -/
def detect_cni_nodes (nodes_list : List Node) : String :=
  if nodes_list.isEmpty then "No nodes available for CNI detection"
  else
    let detected_cnis := nodes_list.filterMap cniEntry
    match detected_cnis with
    | [] => "Unknown CNI"
    | first :: _ => first

/-- The claim side of C1, following the claim words: the canonical name
of the first node in list order whose annotation keys contain a matching
marker. -/
def firstAnnotationMatch (nodes : List Node) : Option String :=
  nodes.findSome? fun node =>
    match node.metadata.annotations with
    | some keys =>
      if keys.any (fun k => strContains k "calico" || strContains k "projectcalico") then
        some "Calico"
      else if keys.any (fun k => strContains k "flannel") then
        some "Flannel"
      else if keys.any (fun k => strContains k "weave") then
        some "Weave Net"
      else if keys.any (fun k => strContains k "cilium") then
        some "Cilium"
      else none
    | none => none

/-- The amended-claim side of C1: the contribution of the first node in
list order that contributes any classification (annotation match first,
container-runtime fallback otherwise, per node). -/
def firstNodeContribution : List Node → Option String
  | [] => none
  | node :: rest =>
    match cniEntry node with
    | some s => some s
    | none => firstNodeContribution rest

/-- A node whose annotations have no CNI marker but whose runtime is
containerd: it contributes the generic fallback entry. -/
def nodeContainerd : Node :=
  { metadata := { annotations := some ["node.alpha.kubernetes.io/ttl"] },
    status := some { node_info := some { container_runtime_version := "containerd://1.7.0" } } }

/-- A node carrying a Calico annotation key. -/
def nodeCalico : Node :=
  { metadata := { annotations := some ["projectcalico.org/IPv4Address"] },
    status := some { node_info := some { container_runtime_version := "containerd://1.7.0" } } }

lemma filterMap_head_eq_firstNodeContribution (nodes : List Node) :
    (match nodes.filterMap cniEntry with
     | [] => none
     | first :: _ => some first) = firstNodeContribution nodes := by
  induction nodes with
  | nil => rfl
  | cons node rest ih =>
    simp only [List.filterMap_cons, firstNodeContribution]
    cases cniEntry node with
    | none => exact ih
    | some s => rfl

/-- C1 counterexample: a cluster whose first node matches no annotation
marker but runs containerd, and whose second node carries a Calico
annotation. The claim requires the canonical name of the first node whose
annotation keys match ("Calico") and forbids the generic runtime label
when any node in the list matches; the code returns the generic label
contributed by the earlier node. -/
theorem detect_cni_fallback_beats_later_annotation :
    firstAnnotationMatch [nodeContainerd, nodeCalico] = some "Calico" ∧
    detect_cni_nodes [nodeContainerd, nodeCalico] = "Generic CNI (containerd)" := by
  constructor <;> rfl

/-- C1 amended: detect_cni is total over a given node list and returns,
for a nonempty list, the classification contributed by the FIRST node in
list order that contributes one — where a node with status and node_info
contributes the canonical name of its first matching annotation marker
if any, and otherwise the generic runtime fallback if its container
runtime mentions containerd or docker; an empty list yields the
descriptive no-nodes string and no contribution at all yields
"Unknown CNI". -/
theorem detect_cni_first_contribution (nodes : List Node) :
    detect_cni_nodes nodes =
      if nodes.isEmpty then "No nodes available for CNI detection"
      else
        match firstNodeContribution nodes with
        | some s => s
        | none => "Unknown CNI" := by
  unfold detect_cni_nodes
  cases h : nodes.isEmpty with
  | true => simp
  | false =>
    simp only [if_false]
    rw [← filterMap_head_eq_firstNodeContribution]
    cases nodes.filterMap cniEntry <;> rfl

/-! ## Environment validation (src/validation.rs, validate_environment, lines 73-94) -/

/-- The process environment and filesystem as observed by
validate_environment: the KUBECONFIG and HOME variables and a
file-existence oracle (std::path::Path::exists). -/
structure EnvState where
  kubeconfig : Option String
  home : Option String
  fileExists : String → Bool

/-- Validator::validate_environment: if KUBECONFIG is set it must name an
existing file; otherwise, if HOME is set, HOME/.kube/config must exist;
any other shape of the environment succeeds. -/
def validate_environment (env : EnvState) : Except NetInspectError Unit :=
  match env.kubeconfig with
  | some kubeconfig_path =>
    if env.fileExists kubeconfig_path then .ok ()
    else .error (.Configuration ("KUBECONFIG file not found: " ++ kubeconfig_path))
  | none =>
    match env.home with
    | some home =>
      let default_kubeconfig := home ++ "/.kube/config"
      if env.fileExists default_kubeconfig then .ok ()
      else .error (.Configuration "No kubeconfig found. Set KUBECONFIG environment variable or place config at ~/.kube/config")
    | none => .ok ()

/-- The amended success condition of environment validation: KUBECONFIG
set and naming an existing file, or KUBECONFIG unset with HOME set and the
default kubeconfig existing, or both variables unset (the code performs no
check at all in that case). -/
def envValidationPasses (env : EnvState) : Prop :=
  (∃ p, env.kubeconfig = some p ∧ env.fileExists p = true) ∨
  (env.kubeconfig = none ∧ ∃ h, env.home = some h ∧
    env.fileExists (h ++ "/.kube/config") = true) ∨
  (env.kubeconfig = none ∧ env.home = none)

/-- C9 counterexample: with KUBECONFIG unset, HOME unset and no file on
the filesystem at all (so in particular no default kubeconfig exists),
validate_environment succeeds, whereas the claim requires a
Configuration-kind error in every absence case including an unset home
variable. -/
theorem validate_environment_no_home_succeeds :
    validate_environment { kubeconfig := none, home := none, fileExists := fun _ => false }
      = Except.ok () := rfl

/-- C9 amended: validation fails exactly when KUBECONFIG is set but names
a non-existent file, or KUBECONFIG is unset, HOME is set, and the default
kubeconfig under HOME does not exist; when both variables are unset it
succeeds without any check. Every failure is Configuration-kind. -/
theorem validate_environment_characterization (env : EnvState) :
    (validate_environment env = Except.ok () ↔ envValidationPasses env) ∧
    (∀ e, validate_environment env = Except.error e →
      ∃ s, e = NetInspectError.Configuration s) := by
  constructor
  · unfold validate_environment envValidationPasses
    cases hk : env.kubeconfig with
    | some p =>
      cases hf : env.fileExists p with
      | true => simp [hk, hf]
      | false => simp [hk, hf]
    | none =>
      cases hh : env.home with
      | some h =>
        cases hf : env.fileExists (h ++ "/.kube/config") with
        | true => simp [hk, hh, hf]
        | false => simp [hk, hh, hf]
      | none => simp [hk, hh]
  · intro e he
    unfold validate_environment at he
    cases hk : env.kubeconfig with
    | some p =>
      rw [hk] at he
      by_cases hf : env.fileExists p = true
      · simp [hf] at he
      · simp [eq_false_of_ne_true hf] at he
        exact ⟨_, he.symm⟩
    | none =>
      rw [hk] at he
      cases hh : env.home with
      | some h =>
        rw [hh] at he
        by_cases hf : env.fileExists (h ++ "/.kube/config") = true
        · simp [hf] at he
        · simp [eq_false_of_ne_true hf] at he
          exact ⟨_, he.symm⟩
      | none => rw [hh] at he; exact absurd he (by simp)

/-- Witness for the C9 amended theorem at a concrete environment: a set
KUBECONFIG naming a missing file fails with a Configuration error. -/
theorem validate_environment_characterization_witness :
    (validate_environment { kubeconfig := some "/tmp/kc", home := none, fileExists := fun _ => false }
        = Except.ok ()
      ↔ envValidationPasses
          { kubeconfig := some "/tmp/kc", home := none, fileExists := fun _ => false }) ∧
    (∃ s, NetInspectError.Configuration ("KUBECONFIG file not found: " ++ "/tmp/kc")
        = NetInspectError.Configuration s) :=
  ⟨(validate_environment_characterization _).1,
   (validate_environment_characterization
      { kubeconfig := some "/tmp/kc", home := none, fileExists := fun _ => false }).2 _ rfl⟩

/-! ## Permission prober (src/validation.rs, lines 121-302) -/

/-- One network-bound operation of the prober, recorded in a trace:
client construction, a list call on a resource kind with its item limit,
or a get call on a named object of a resource kind. -/
inductive Probe where
  | clientInit : Probe
  | listCall : String → Nat → Probe
  | getCall : String → String → Probe
deriving DecidableEq, Repr

/-- The metadata of a listed pod (or other object) as consumed by the
prober: only the optional name is read. -/
structure PodMeta where
  name : Option String
deriving DecidableEq, Repr

/-- The control-plane API as an oracle: the outcome of each call the
prober can make. validate_pods_access issues the pods list twice, so the
two calls get separate outcomes. -/
structure ClusterEnv where
  clientCreate : Except KubeError Unit
  nodesList : Except KubeError Unit
  podsList : Except KubeError (List PodMeta)
  podsList2 : Except KubeError (List PodMeta)
  podGet : String → Except KubeError Unit
  servicesList : Except KubeError Unit
  endpointsList : Except KubeError Unit
  namespacesList : Except KubeError Unit

/-- First line of the nodes/list denial message from
validate_nodes_access (multi-line remediation text elided). -/
def nodes_list_denied_msg : String := "Missing RBAC permission: nodes/list"

/-- First line of the pods/list denial message from validate_pods_access
(multi-line remediation text elided). -/
def pods_list_denied_msg : String := "Missing RBAC permission: pods/list and pods/get"

/-- The pods/get denial message from validate_pods_access. -/
def pods_get_denied_msg : String :=
  "Missing RBAC permission: pods/get. Required for detailed pod network analysis."

/-- First line of the services/list denial message (remediation elided). -/
def services_list_denied_msg : String := "Missing RBAC permission: services/list and services/get"

/-- First line of the endpoints/list denial message (remediation elided). -/
def endpoints_list_denied_msg : String := "Missing RBAC permission: endpoints/list and endpoints/get"

/-- First line of the namespaces/list denial message (remediation elided). -/
def namespaces_list_denied_msg : String := "Missing RBAC permission: namespaces/list and namespaces/get"

/-- validate_nodes_access (src/validation.rs lines 168-188): one list
call limited to one item; Api 403 yields the dedicated PermissionDenied
message, any other error maps through From. -/
def validate_nodes_access (env : ClusterEnv) : Except NetInspectError Unit × List Probe :=
  (match env.nodesList with
   | .ok _ => .ok ()
   | .error (KubeError.Api code msg) =>
     if code = 403 then .error (.PermissionDenied nodes_list_denied_msg)
     else .error (NetInspectError.fromKube (.Api code msg))
   | .error e => .error (NetInspectError.fromKube e),
   [Probe.listCall "nodes" 1])

/-- validate_pods_access (src/validation.rs lines 191-233): a first list
call limited to one item (Api 403 yields the dedicated message, other
errors map through From); on success a second identical list call whose
error maps through From; if it returns a named pod, a get on that name
whose outcome is inspected ONLY for Api 403 — any other get failure is
discarded and the probe succeeds. -/
def validate_pods_access (env : ClusterEnv) : Except NetInspectError Unit × List Probe :=
  match env.podsList with
  | .error (KubeError.Api code msg) =>
    (if code = 403 then .error (.PermissionDenied pods_list_denied_msg)
     else .error (NetInspectError.fromKube (.Api code msg)),
     [Probe.listCall "pods" 1])
  | .error e => (.error (NetInspectError.fromKube e), [Probe.listCall "pods" 1])
  | .ok _ =>
    match env.podsList2 with
    | .error e =>
      (.error (NetInspectError.fromKube e), [Probe.listCall "pods" 1, Probe.listCall "pods" 1])
    | .ok pod_list =>
      -- pod_list.items.first() in the source: the head of the returned items
      match pod_list with
      | [] => (.ok (), [Probe.listCall "pods" 1, Probe.listCall "pods" 1])
      | pod :: _ =>
        match pod.name with
        | none => (.ok (), [Probe.listCall "pods" 1, Probe.listCall "pods" 1])
        | some pod_name =>
          (match env.podGet pod_name with
           | .error (KubeError.Api code _) =>
             if code = 403 then .error (.PermissionDenied pods_get_denied_msg)
             else .ok ()
           | _ => .ok (),
           [Probe.listCall "pods" 1, Probe.listCall "pods" 1, Probe.getCall "pods" pod_name])

/-- validate_services_access (src/validation.rs lines 236-256): same
shape as the nodes probe, on the services kind. -/
def validate_services_access (env : ClusterEnv) : Except NetInspectError Unit × List Probe :=
  (match env.servicesList with
   | .ok _ => .ok ()
   | .error (KubeError.Api code msg) =>
     if code = 403 then .error (.PermissionDenied services_list_denied_msg)
     else .error (NetInspectError.fromKube (.Api code msg))
   | .error e => .error (NetInspectError.fromKube e),
   [Probe.listCall "services" 1])

/-- validate_endpoints_access (src/validation.rs lines 259-279): same
shape as the nodes probe, on the endpoints kind. -/
def validate_endpoints_access (env : ClusterEnv) : Except NetInspectError Unit × List Probe :=
  (match env.endpointsList with
   | .ok _ => .ok ()
   | .error (KubeError.Api code msg) =>
     if code = 403 then .error (.PermissionDenied endpoints_list_denied_msg)
     else .error (NetInspectError.fromKube (.Api code msg))
   | .error e => .error (NetInspectError.fromKube e),
   [Probe.listCall "endpoints" 1])

/-- validate_namespaces_access (src/validation.rs lines 282-302): same
shape as the nodes probe, on the namespaces kind. -/
def validate_namespaces_access (env : ClusterEnv) : Except NetInspectError Unit × List Probe :=
  (match env.namespacesList with
   | .ok _ => .ok ()
   | .error (KubeError.Api code msg) =>
     if code = 403 then .error (.PermissionDenied namespaces_list_denied_msg)
     else .error (NetInspectError.fromKube (.Api code msg))
   | .error e => .error (NetInspectError.fromKube e),
   [Probe.listCall "namespaces" 1])

/-- Sequencing of traced fallible steps, mirroring the
match-and-return-on-error chaining in validate_kubernetes_access: on
error the later step contributes no probes. -/
def andThenProbe (step : Except NetInspectError Unit × List Probe)
    (rest : Unit → Except NetInspectError Unit × List Probe) :
    Except NetInspectError Unit × List Probe :=
  match step.1 with
  | .error e => (.error e, step.2)
  | .ok _ =>
    let r := rest ()
    (r.1, step.2 ++ r.2)

/-- The five per-kind probes of validate_kubernetes_access in their
source order, chained with stop-at-first-error. -/
def probeChain (env : ClusterEnv) : Except NetInspectError Unit × List Probe :=
  andThenProbe (validate_nodes_access env) fun _ =>
  andThenProbe (validate_pods_access env) fun _ =>
  andThenProbe (validate_services_access env) fun _ =>
  andThenProbe (validate_endpoints_access env) fun _ =>
  validate_namespaces_access env

/-- validate_kubernetes_access (src/validation.rs lines 121-165): build
the client (failure is a KubernetesConnection error before any probe),
then run the five per-kind probes in the fixed order nodes, pods,
services, endpoints, namespaces, stopping at the first error. -/
def validate_kubernetes_access (env : ClusterEnv) : Except NetInspectError Unit × List Probe :=
  match env.clientCreate with
  | .error e =>
    (.error (.KubernetesConnection
      ("Failed to create Kubernetes client. Check kubeconfig and cluster connectivity: "
        ++ e.render)),
     [Probe.clientInit])
  | .ok _ => ((probeChain env).1, Probe.clientInit :: (probeChain env).2)

/-- The position of a resource kind in the fixed probing order of the prober. -/
def resourceRank (r : String) : Nat :=
  if r = "nodes" then 0
  else if r = "pods" then 1
  else if r = "services" then 2
  else if r = "endpoints" then 3
  else if r = "namespaces" then 4
  else 5

/-- The rank of a probe in the fixed order of the prober: client construction
comes first, then probes ordered by their resource kind. -/
def probeRank : Probe → Nat
  | .clientInit => 0
  | .listCall r _ => resourceRank r + 1
  | .getCall r _ => resourceRank r + 1

/-- Probes ordered by rank. -/
def rankLE (p q : Probe) : Prop := probeRank p ≤ probeRank q

/-- Whether the pod get probe, if one is issued, is tolerated by
validate_pods_access: everything except an Api 403 outcome. -/
def podGetTolerated (env : ClusterEnv) : Prop :=
  match env.podsList2 with
  | .ok pod_list =>
    match pod_list with
    | pod :: _ =>
      match pod.name with
      | some n =>
        match env.podGet n with
        | .error (KubeError.Api code _) => ¬ code = 403
        | _ => True
      | none => True
    | [] => True
  | .error _ => True

lemma andThenProbe_of_error {s : Except NetInspectError Unit × List Probe}
    {rest : Unit → Except NetInspectError Unit × List Probe} {e : NetInspectError}
    (hs : s.1 = Except.error e) : andThenProbe s rest = (Except.error e, s.2) := by
  unfold andThenProbe
  rw [hs]

lemma andThenProbe_of_ok {s : Except NetInspectError Unit × List Probe}
    {rest : Unit → Except NetInspectError Unit × List Probe}
    (hs : s.1 = Except.ok ()) :
    andThenProbe s rest = ((rest ()).1, s.2 ++ (rest ()).2) := by
  unfold andThenProbe
  rw [hs]

lemma andThenProbe_ok_iff (s : Except NetInspectError Unit × List Probe)
    (rest : Unit → Except NetInspectError Unit × List Probe) :
    (andThenProbe s rest).1 = Except.ok () ↔
      (s.1 = Except.ok () ∧ (rest ()).1 = Except.ok ()) := by
  unfold andThenProbe
  cases hs : s.1 with
  | error e => simp [hs]
  | ok u => cases u; simp [hs]

lemma andThenProbe_trace_mem (s : Except NetInspectError Unit × List Probe)
    (rest : Unit → Except NetInspectError Unit × List Probe) (p : Probe)
    (hp : p ∈ (andThenProbe s rest).2) : p ∈ s.2 ∨ p ∈ (rest ()).2 := by
  unfold andThenProbe at hp
  cases hs : s.1 with
  | error e => rw [hs] at hp; exact Or.inl hp
  | ok u =>
    rw [hs] at hp
    exact List.mem_append.mp hp

lemma pairwise_rank_of_const (l : List Probe) (k : Nat)
    (h : ∀ p ∈ l, probeRank p = k) : l.Pairwise rankLE := by
  induction l with
  | nil => exact List.Pairwise.nil
  | cons a t ih =>
    refine List.Pairwise.cons ?_ (ih fun p hp => h p (List.mem_cons_of_mem a hp))
    intro b hb
    unfold rankLE
    rw [h a (List.mem_cons_self a t), h b (List.mem_cons_of_mem a hb)]

lemma andThenProbe_pairwise (s : Except NetInspectError Unit × List Probe)
    (rest : Unit → Except NetInspectError Unit × List Probe) (k : Nat)
    (hub : ∀ p ∈ s.2, probeRank p ≤ k) (ps : s.2.Pairwise rankLE)
    (hlb : ∀ p ∈ (rest ()).2, k ≤ probeRank p) (pr : (rest ()).2.Pairwise rankLE) :
    (andThenProbe s rest).2.Pairwise rankLE := by
  unfold andThenProbe
  cases hs : s.1 with
  | error e => exact ps
  | ok u =>
    rw [List.pairwise_append]
    exact ⟨ps, pr, fun a ha b hb => le_trans (hub a ha) (hlb b hb)⟩

lemma validate_nodes_access_trace (env : ClusterEnv) :
    (validate_nodes_access env).2 = [Probe.listCall "nodes" 1] := rfl

lemma validate_services_access_trace (env : ClusterEnv) :
    (validate_services_access env).2 = [Probe.listCall "services" 1] := rfl

lemma validate_endpoints_access_trace (env : ClusterEnv) :
    (validate_endpoints_access env).2 = [Probe.listCall "endpoints" 1] := rfl

lemma validate_namespaces_access_trace (env : ClusterEnv) :
    (validate_namespaces_access env).2 = [Probe.listCall "namespaces" 1] := rfl

lemma validate_pods_access_trace_shape (env : ClusterEnv) :
    ∀ p ∈ (validate_pods_access env).2,
      probeRank p = 2 ∧ ∀ r n, p = Probe.listCall r n → n = 1 := by
  unfold validate_pods_access
  cases env.podsList with
  | error e =>
    cases e <;>
      · intro p hp
        simp only [List.mem_singleton] at hp
        subst hp
        exact ⟨rfl, by intro r n h; cases h; rfl⟩
  | ok l =>
    cases env.podsList2 with
    | error e =>
      intro p hp
      simp only [List.mem_cons, List.not_mem_nil, or_false] at hp
      rcases hp with rfl | rfl <;> exact ⟨rfl, by intro r n h; cases h; rfl⟩
    | ok pod_list =>
      cases pod_list with
      | nil =>
        intro p hp
        simp only [List.mem_cons, List.not_mem_nil, or_false] at hp
        rcases hp with rfl | rfl <;> exact ⟨rfl, by intro r n h; cases h; rfl⟩
      | cons pod rest =>
        obtain ⟨name?⟩ := pod
        cases name? with
        | none =>
          intro p hp
          simp only [List.mem_cons, List.not_mem_nil, or_false] at hp
          rcases hp with rfl | rfl <;> exact ⟨rfl, by intro r n h; cases h; rfl⟩
        | some n =>
          intro p hp
          simp only [List.mem_cons, List.not_mem_nil, or_false] at hp
          rcases hp with rfl | rfl | rfl
          · exact ⟨rfl, by intro r n h; cases h; rfl⟩
          · exact ⟨rfl, by intro r n h; cases h; rfl⟩
          · exact ⟨rfl, by intro r n h; cases h⟩

lemma validate_pods_access_trace_head (env : ClusterEnv) :
    Probe.listCall "pods" 1 ∈ (validate_pods_access env).2 := by
  unfold validate_pods_access
  cases env.podsList with
  | error e => cases e <;> exact List.mem_singleton.mpr rfl
  | ok l =>
    cases env.podsList2 with
    | error e => exact List.mem_cons_self _ _
    | ok pod_list =>
      cases pod_list with
      | nil => exact List.mem_cons_self _ _
      | cons pod rest =>
        obtain ⟨name?⟩ := pod
        cases name? with
        | none => exact List.mem_cons_self _ _
        | some n => exact List.mem_cons_self _ _

lemma validate_nodes_access_ok_iff (env : ClusterEnv) :
    (validate_nodes_access env).1 = Except.ok () ↔ isOkE env.nodesList = true := by
  unfold validate_nodes_access isOkE
  cases env.nodesList with
  | ok u => simp
  | error e => cases e <;> dsimp <;> first | (split <;> simp) | simp

lemma validate_services_access_ok_iff (env : ClusterEnv) :
    (validate_services_access env).1 = Except.ok () ↔ isOkE env.servicesList = true := by
  unfold validate_services_access isOkE
  cases env.servicesList with
  | ok u => simp
  | error e => cases e <;> dsimp <;> first | (split <;> simp) | simp

lemma validate_endpoints_access_ok_iff (env : ClusterEnv) :
    (validate_endpoints_access env).1 = Except.ok () ↔ isOkE env.endpointsList = true := by
  unfold validate_endpoints_access isOkE
  cases env.endpointsList with
  | ok u => simp
  | error e => cases e <;> dsimp <;> first | (split <;> simp) | simp

lemma validate_namespaces_access_ok_iff (env : ClusterEnv) :
    (validate_namespaces_access env).1 = Except.ok () ↔ isOkE env.namespacesList = true := by
  unfold validate_namespaces_access isOkE
  cases env.namespacesList with
  | ok u => simp
  | error e => cases e <;> dsimp <;> first | (split <;> simp) | simp

lemma validate_pods_access_ok_iff (env : ClusterEnv) :
    (validate_pods_access env).1 = Except.ok () ↔
      (isOkE env.podsList = true ∧ isOkE env.podsList2 = true ∧ podGetTolerated env) := by
  unfold validate_pods_access podGetTolerated isOkE
  cases env.podsList with
  | error e => cases e <;> dsimp <;> split <;> simp
  | ok l =>
    cases env.podsList2 with
    | error e => simp
    | ok pod_list =>
      cases pod_list with
      | nil => simp
      | cons pod rest =>
        obtain ⟨name?⟩ := pod
        cases name? with
        | none => simp
        | some n =>
          dsimp only
          rcases hg : env.podGet n with ge | u
          · cases ge <;> dsimp <;> first | (split <;> simp_all) | simp
          · simp

lemma validate_nodes_access_403 (env : ClusterEnv) (m : String)
    (h : env.nodesList = Except.error (KubeError.Api 403 m)) :
    (validate_nodes_access env).1
      = Except.error (NetInspectError.PermissionDenied nodes_list_denied_msg) := by
  unfold validate_nodes_access
  rw [h]
  simp

lemma andThenProbe_rank_lb (s : Except NetInspectError Unit × List Probe)
    (rest : Unit → Except NetInspectError Unit × List Probe) (k : Nat)
    (h₁ : ∀ p ∈ s.2, k ≤ probeRank p) (h₂ : ∀ p ∈ (rest ()).2, k ≤ probeRank p) :
    ∀ p ∈ (andThenProbe s rest).2, k ≤ probeRank p := by
  intro p hp
  rcases andThenProbe_trace_mem s rest p hp with h | h
  · exact h₁ p h
  · exact h₂ p h

lemma ranks_nodes (env : ClusterEnv) :
    ∀ p ∈ (validate_nodes_access env).2, probeRank p = 1 := by
  rw [validate_nodes_access_trace]
  intro p hp
  simp only [List.mem_singleton] at hp
  subst hp; rfl

lemma ranks_services (env : ClusterEnv) :
    ∀ p ∈ (validate_services_access env).2, probeRank p = 3 := by
  rw [validate_services_access_trace]
  intro p hp
  simp only [List.mem_singleton] at hp
  subst hp; rfl

lemma ranks_endpoints (env : ClusterEnv) :
    ∀ p ∈ (validate_endpoints_access env).2, probeRank p = 4 := by
  rw [validate_endpoints_access_trace]
  intro p hp
  simp only [List.mem_singleton] at hp
  subst hp; rfl

lemma ranks_namespaces (env : ClusterEnv) :
    ∀ p ∈ (validate_namespaces_access env).2, probeRank p = 5 := by
  rw [validate_namespaces_access_trace]
  intro p hp
  simp only [List.mem_singleton] at hp
  subst hp; rfl

lemma probeChain_ok_iff (env : ClusterEnv) :
    (probeChain env).1 = Except.ok () ↔
      ((validate_nodes_access env).1 = Except.ok () ∧
       (validate_pods_access env).1 = Except.ok () ∧
       (validate_services_access env).1 = Except.ok () ∧
       (validate_endpoints_access env).1 = Except.ok () ∧
       (validate_namespaces_access env).1 = Except.ok ()) := by
  unfold probeChain
  simp only [andThenProbe_ok_iff]

lemma probeChain_trace_mem (env : ClusterEnv) (p : Probe)
    (hp : p ∈ (probeChain env).2) :
    p ∈ (validate_nodes_access env).2 ∨ p ∈ (validate_pods_access env).2 ∨
    p ∈ (validate_services_access env).2 ∨ p ∈ (validate_endpoints_access env).2 ∨
    p ∈ (validate_namespaces_access env).2 := by
  unfold probeChain at hp
  rcases andThenProbe_trace_mem _ _ p hp with h | h
  · exact Or.inl h
  rcases andThenProbe_trace_mem _ _ p h with h | h
  · exact Or.inr (Or.inl h)
  rcases andThenProbe_trace_mem _ _ p h with h | h
  · exact Or.inr (Or.inr (Or.inl h))
  rcases andThenProbe_trace_mem _ _ p h with h | h
  · exact Or.inr (Or.inr (Or.inr (Or.inl h)))
  · exact Or.inr (Or.inr (Or.inr (Or.inr h)))

lemma probeChain_pairwise (env : ClusterEnv) : (probeChain env).2.Pairwise rankLE := by
  have hn := ranks_nodes env
  have hpo := fun p h => (validate_pods_access_trace_shape env p h).1
  have hs := ranks_services env
  have he := ranks_endpoints env
  have hna := ranks_namespaces env
  unfold probeChain
  refine andThenProbe_pairwise _ _ 1 (fun p h => le_of_eq (hn p h))
      (pairwise_rank_of_const _ 1 hn)
      (andThenProbe_rank_lb _ _ 1 (fun p h => by rw [hpo p h]; omega)
        (andThenProbe_rank_lb _ _ 1 (fun p h => by rw [hs p h]; omega)
          (andThenProbe_rank_lb _ _ 1 (fun p h => by rw [he p h]; omega)
            (fun p h => by rw [hna p h]; omega))))
      (andThenProbe_pairwise _ _ 2 (fun p h => le_of_eq (hpo p h))
        (pairwise_rank_of_const _ 2 hpo)
        (andThenProbe_rank_lb _ _ 2 (fun p h => by rw [hs p h]; omega)
          (andThenProbe_rank_lb _ _ 2 (fun p h => by rw [he p h]; omega)
            (fun p h => by rw [hna p h]; omega)))
        (andThenProbe_pairwise _ _ 3 (fun p h => le_of_eq (hs p h))
          (pairwise_rank_of_const _ 3 hs)
          (andThenProbe_rank_lb _ _ 3 (fun p h => by rw [he p h]; omega)
            (fun p h => by rw [hna p h]; omega))
          (andThenProbe_pairwise _ _ 4 (fun p h => le_of_eq (he p h))
            (pairwise_rank_of_const _ 4 he)
            (fun p h => by rw [hna p h]; omega)
            (pairwise_rank_of_const _ 5 hna))))

lemma probeChain_limit (env : ClusterEnv) :
    ∀ r n, Probe.listCall r n ∈ (probeChain env).2 → n = 1 := by
  intro r n hmem
  rcases probeChain_trace_mem env _ hmem with h | h | h | h | h
  · rw [validate_nodes_access_trace] at h
    simp only [List.mem_singleton, Probe.listCall.injEq] at h
    exact h.2
  · exact (validate_pods_access_trace_shape env _ h).2 r n rfl
  · rw [validate_services_access_trace] at h
    simp only [List.mem_singleton, Probe.listCall.injEq] at h
    exact h.2
  · rw [validate_endpoints_access_trace] at h
    simp only [List.mem_singleton, Probe.listCall.injEq] at h
    exact h.2
  · rw [validate_namespaces_access_trace] at h
    simp only [List.mem_singleton, Probe.listCall.injEq] at h
    exact h.2

lemma probeChain_trace_of_ok (env : ClusterEnv) (h : (probeChain env).1 = Except.ok ()) :
    (probeChain env).2 =
      (validate_nodes_access env).2 ++
      ((validate_pods_access env).2 ++
      ((validate_services_access env).2 ++
      ((validate_endpoints_access env).2 ++ (validate_namespaces_access env).2))) := by
  obtain ⟨h1, h2, h3, h4, h5⟩ := (probeChain_ok_iff env).mp h
  unfold probeChain
  rw [andThenProbe_of_ok h1]
  dsimp only
  rw [andThenProbe_of_ok h2]
  dsimp only
  rw [andThenProbe_of_ok h3]
  dsimp only
  rw [andThenProbe_of_ok h4]

/-- C2: validate_kubernetes_access probes the five resource kinds in the
fixed order nodes, pods, services, endpoints, namespaces (ranks along the
probe trace are monotone), every list probe is capped to one item, an
Api 403 on the nodes probe yields PermissionDenied with a trace that
contains no probe beyond the nodes list, success implies all five list
probes succeeded, and on success the trace contains a capped list probe
for each of the five kinds. -/
theorem validate_access_order_and_short_circuit (env : ClusterEnv) (m : String) :
    (env.clientCreate = Except.ok () →
     env.nodesList = Except.error (KubeError.Api 403 m) →
      validate_kubernetes_access env =
        (Except.error (NetInspectError.PermissionDenied nodes_list_denied_msg),
         [Probe.clientInit, Probe.listCall "nodes" 1])) ∧
    ((validate_kubernetes_access env).1 = Except.ok () →
      isOkE env.nodesList = true ∧ isOkE env.podsList = true ∧
      isOkE env.servicesList = true ∧ isOkE env.endpointsList = true ∧
      isOkE env.namespacesList = true) ∧
    List.Pairwise rankLE (validate_kubernetes_access env).2 ∧
    (∀ r n, Probe.listCall r n ∈ (validate_kubernetes_access env).2 → n = 1) ∧
    ((validate_kubernetes_access env).1 = Except.ok () →
      Probe.listCall "nodes" 1 ∈ (validate_kubernetes_access env).2 ∧
      Probe.listCall "pods" 1 ∈ (validate_kubernetes_access env).2 ∧
      Probe.listCall "services" 1 ∈ (validate_kubernetes_access env).2 ∧
      Probe.listCall "endpoints" 1 ∈ (validate_kubernetes_access env).2 ∧
      Probe.listCall "namespaces" 1 ∈ (validate_kubernetes_access env).2) := by
  refine ⟨?_, ?_, ?_, ?_, ?_⟩
  · intro hc h403
    unfold validate_kubernetes_access
    rw [hc]
    dsimp only
    unfold probeChain
    rw [andThenProbe_of_error (validate_nodes_access_403 env m h403)]
    rw [validate_nodes_access_trace]
  · intro hok
    unfold validate_kubernetes_access at hok
    rcases hcc : env.clientCreate with e | u
    · rw [hcc] at hok; exact absurd hok (by simp)
    · rw [hcc] at hok
      dsimp only at hok
      obtain ⟨h1, h2, h3, h4, h5⟩ := (probeChain_ok_iff env).mp hok
      exact ⟨(validate_nodes_access_ok_iff env).mp h1,
             ((validate_pods_access_ok_iff env).mp h2).1,
             (validate_services_access_ok_iff env).mp h3,
             (validate_endpoints_access_ok_iff env).mp h4,
             (validate_namespaces_access_ok_iff env).mp h5⟩
  · unfold validate_kubernetes_access
    rcases hcc : env.clientCreate with e | u
    · simp
    · dsimp only
      exact List.Pairwise.cons (fun q hq => Nat.zero_le _) (probeChain_pairwise env)
  · intro r n hmem
    unfold validate_kubernetes_access at hmem
    rcases hcc : env.clientCreate with e | u
    · rw [hcc] at hmem
      simp at hmem
    · rw [hcc] at hmem
      dsimp only at hmem
      rcases List.mem_cons.mp hmem with h | h
      · cases h
      · exact probeChain_limit env r n h
  · intro hok
    unfold validate_kubernetes_access at hok ⊢
    rcases hcc : env.clientCreate with e | u
    · rw [hcc] at hok; exact absurd hok (by simp)
    · rw [hcc] at hok
      dsimp only at hok
      dsimp only
      rw [probeChain_trace_of_ok env hok]
      have hpods := validate_pods_access_trace_head env
      refine ⟨?_, ?_, ?_, ?_, ?_⟩ <;>
        simp [validate_nodes_access_trace, validate_services_access_trace,
              validate_endpoints_access_trace, validate_namespaces_access_trace,
              List.mem_append, hpods]

/-- An environment whose nodes probe is denied with Api 403 and whose
other calls would all succeed. -/
def envNodes403 : ClusterEnv :=
  { clientCreate := .ok (), nodesList := .error (.Api 403 "nodes is forbidden"),
    podsList := .ok [], podsList2 := .ok [], podGet := fun _ => .ok (),
    servicesList := .ok (), endpointsList := .ok (), namespacesList := .ok () }

/-- An environment where every call succeeds and the pods list is empty. -/
def envAllOk : ClusterEnv :=
  { clientCreate := .ok (), nodesList := .ok (),
    podsList := .ok [], podsList2 := .ok [], podGet := fun _ => .ok (),
    servicesList := .ok (), endpointsList := .ok (), namespacesList := .ok () }

/-- Witness for C2 at concrete environments: the 403 short-circuit fires
on envNodes403 and the success-side conclusions hold on envAllOk. -/
theorem validate_access_order_witness :
    (validate_kubernetes_access envNodes403 =
      (Except.error (NetInspectError.PermissionDenied nodes_list_denied_msg),
       [Probe.clientInit, Probe.listCall "nodes" 1])) ∧
    (isOkE envAllOk.nodesList = true ∧ isOkE envAllOk.podsList = true ∧
     isOkE envAllOk.servicesList = true ∧ isOkE envAllOk.endpointsList = true ∧
     isOkE envAllOk.namespacesList = true) ∧
    (Probe.listCall "nodes" 1 ∈ (validate_kubernetes_access envAllOk).2 ∧
     Probe.listCall "pods" 1 ∈ (validate_kubernetes_access envAllOk).2 ∧
     Probe.listCall "services" 1 ∈ (validate_kubernetes_access envAllOk).2 ∧
     Probe.listCall "endpoints" 1 ∈ (validate_kubernetes_access envAllOk).2 ∧
     Probe.listCall "namespaces" 1 ∈ (validate_kubernetes_access envAllOk).2) :=
  ⟨(validate_access_order_and_short_circuit envNodes403 "nodes is forbidden").1 rfl rfl,
   (validate_access_order_and_short_circuit envAllOk "").2.1 rfl,
   (validate_access_order_and_short_circuit envAllOk "").2.2.2.2 rfl⟩

/-- An environment in which the opportunistic pods get probe fails with
Api 500 while both pods lists succeed and return one named pod. -/
def envPodGet500 : ClusterEnv :=
  { envAllOk with
    podsList := .ok [{ name := some "pod-0" }],
    podsList2 := .ok [{ name := some "pod-0" }],
    podGet := fun _ => .error (.Api 500 "internal error") }

/-- C5 counterexample: validate_pods_access issues a get probe on the
listed pod, receives an Api 500 error from it, and nevertheless returns
success, discarding the error — contradicting the claim that no code
path receives an error from a probe and still returns success. -/
theorem validate_pods_access_swallows_get_error :
    envPodGet500.podGet "pod-0" = Except.error (KubeError.Api 500 "internal error") ∧
    Probe.getCall "pods" "pod-0" ∈ (validate_pods_access envPodGet500).2 ∧
    (validate_pods_access envPodGet500).1 = Except.ok () := by
  refine ⟨rfl, ?_, rfl⟩
  decide

/-- C5 amended: in validate_pods_access, failures of either pods list
call are always surfaced as their mapped ErrorKind and an Api 403 from
the opportunistic get probe is surfaced as PermissionDenied, but every
other failure of that get probe is discarded and the check succeeds:
success holds exactly when both list calls succeed and the get probe
(if one is issued) does not return Api 403. The same discard pattern
recurs in the get-verb branch of validate_specific_permission. -/
theorem validate_pods_access_success_characterization (env : ClusterEnv) :
    (validate_pods_access env).1 = Except.ok () ↔
      (isOkE env.podsList = true ∧ isOkE env.podsList2 = true ∧ podGetTolerated env) :=
  validate_pods_access_ok_iff env

/-! ## Ad hoc permission checks (src/validation.rs, validate_specific_permission, lines 305-483) -/

/-- The control-plane API as seen by validate_specific_permission: client
construction, a per-resource list outcome and a per-resource get outcome. -/
structure SpecificEnv where
  clientCreate : Except KubeError Unit
  listResult : String → Except KubeError (List PodMeta)
  getResult : String → String → Except KubeError Unit

/-- The denial message of validate_specific_permission for one resource
and verb: cluster-scoped resources (nodes, namespaces) get the
cluster-level form, namespaced ones name the namespace (defaulting to
"default", namespace.unwrap_or in the source). -/
def verb_denied_msg (resource verb : String) (ns : Option String) (clusterScoped : Bool) : String :=
  if clusterScoped then
    "Missing RBAC permission: " ++ resource ++ "/" ++ verb ++ " (cluster-level)"
  else
    "Missing RBAC permission: " ++ resource ++ "/" ++ verb ++ " in namespace " ++ ns.getD "default"

/-- The for-loop over verbs shared by the four supported-resource arms of
validate_specific_permission (they differ only in the resource kind, its
scope and hence the message). For "list": a capped list whose outcome is
inspected only for Api 403 — any other failure falls through to the next
verb. For "get": a capped list, and only if it succeeds with a named
object a get on that name, again inspected only for Api 403. Any other
verb is InvalidInput immediately. -/
def permissionVerbLoop (env : SpecificEnv) (resource : String) (clusterScoped : Bool)
    (ns : Option String) : List String → Except NetInspectError Unit × List Probe
  | [] => (.ok (), [])
  | verb :: rest =>
    if verb = "list" then
      match env.listResult resource with
      | .error (KubeError.Api code _) =>
        if code = 403 then
          (.error (.PermissionDenied (verb_denied_msg resource "list" ns clusterScoped)),
           [Probe.listCall resource 1])
        else
          let r := permissionVerbLoop env resource clusterScoped ns rest
          (r.1, Probe.listCall resource 1 :: r.2)
      | _ =>
        let r := permissionVerbLoop env resource clusterScoped ns rest
        (r.1, Probe.listCall resource 1 :: r.2)
    else if verb = "get" then
      match env.listResult resource with
      | .ok (obj :: _) =>
        match obj.name with
        | some objName =>
          match env.getResult resource objName with
          | .error (KubeError.Api code _) =>
            if code = 403 then
              (.error (.PermissionDenied (verb_denied_msg resource "get" ns clusterScoped)),
               [Probe.listCall resource 1, Probe.getCall resource objName])
            else
              let r := permissionVerbLoop env resource clusterScoped ns rest
              (r.1, Probe.listCall resource 1 :: Probe.getCall resource objName :: r.2)
          | _ =>
            let r := permissionVerbLoop env resource clusterScoped ns rest
            (r.1, Probe.listCall resource 1 :: Probe.getCall resource objName :: r.2)
        | none =>
          let r := permissionVerbLoop env resource clusterScoped ns rest
          (r.1, Probe.listCall resource 1 :: r.2)
      | .ok [] =>
        let r := permissionVerbLoop env resource clusterScoped ns rest
        (r.1, Probe.listCall resource 1 :: r.2)
      -- if let Ok(...) in the source: a FAILED list is silently skipped
      | .error _ =>
        let r := permissionVerbLoop env resource clusterScoped ns rest
        (r.1, Probe.listCall resource 1 :: r.2)
    else
      (.error (.InvalidInput ("Unsupported verb " ++ verb ++ " for resource validation")), [])

/-- validate_specific_permission (src/validation.rs lines 305-483): the
client is constructed FIRST (its failure is a KubernetesConnection
error); only then is the resource matched — pods and services are
namespaced, nodes and namespaces cluster-scoped, anything else is
InvalidInput — and the verb loop run. -/
def validate_specific_permission (env : SpecificEnv) (resource : String)
    (verbs : List String) (ns : Option String) :
    Except NetInspectError Unit × List Probe :=
  match env.clientCreate with
  | .error e =>
    (.error (.KubernetesConnection ("Failed to create Kubernetes client: " ++ e.render)),
     [Probe.clientInit])
  | .ok _ =>
    if resource = "pods" then
      let r := permissionVerbLoop env "pods" false ns verbs
      (r.1, Probe.clientInit :: r.2)
    else if resource = "nodes" then
      let r := permissionVerbLoop env "nodes" true ns verbs
      (r.1, Probe.clientInit :: r.2)
    else if resource = "services" then
      let r := permissionVerbLoop env "services" false ns verbs
      (r.1, Probe.clientInit :: r.2)
    else if resource = "namespaces" then
      let r := permissionVerbLoop env "namespaces" true ns verbs
      (r.1, Probe.clientInit :: r.2)
    else
      (.error (.InvalidInput ("Unsupported resource " ++ resource ++ " for permission validation")),
       [Probe.clientInit])

/-- A specific-permission environment whose client construction fails. -/
def envSpecClientFail : SpecificEnv :=
  { clientCreate := .error (.Other "connection refused"),
    listResult := fun _ => .ok [],
    getResult := fun _ _ => .ok () }

/-- A specific-permission environment whose every call succeeds, with an
empty list result. -/
def envSpecOk : SpecificEnv :=
  { clientCreate := .ok (),
    listResult := fun _ => .ok [],
    getResult := fun _ _ => .ok () }

/-- C4 (code bug): validate_specific_permission constructs the
Kubernetes client before inspecting the resource or verbs. At the
failing input resource "endpoints" (unsupported here) with verbs
["get"]: if client construction fails the result is
KubernetesConnection, not the claimed InvalidInput; if it succeeds the
InvalidInput is produced only after the client-construction operation
(clientInit heads the trace); and for a supported resource with verbs
["list", "badverb"] the list network call precedes the InvalidInput for
the unsupported verb. -/
theorem validate_specific_permission_client_first :
    validate_specific_permission envSpecClientFail "endpoints" ["get"] none =
      (Except.error (NetInspectError.KubernetesConnection
        ("Failed to create Kubernetes client: " ++ "connection refused")),
       [Probe.clientInit]) ∧
    validate_specific_permission envSpecOk "endpoints" ["get"] none =
      (Except.error (NetInspectError.InvalidInput
        "Unsupported resource endpoints for permission validation"),
       [Probe.clientInit]) ∧
    validate_specific_permission envSpecOk "pods" ["list", "badverb"] none =
      (Except.error (NetInspectError.InvalidInput
        "Unsupported verb badverb for resource validation"),
       [Probe.clientInit, Probe.listCall "pods" 1]) :=
  ⟨rfl, rfl, rfl⟩

/-! ## Connectivity retries (src/commands/mod.rs, test_connectivity_with_retries, lines 232-248) -/

/-- The observable outcome of one run of the retry loop: the returned
value (none models control reaching the unreachable panic after the for
loop), the milliseconds slept between attempts, and the attempt numbers
at which an HTTP probe was issued. -/
structure RetryRun where
  result : Option (Except NetInspectError Unit)
  sleeps : List Nat
  attempts : List Nat
deriving Repr

/-- The for loop of test_connectivity_with_retries, from a given attempt
number: while the attempt count does not exceed max_retries, probe; on
success return Ok; on failure with attempts remaining sleep
1000 * attempt milliseconds and continue; on failure on the final attempt
return that error. Falling out of the loop reaches the unreachable panic,
modelled as a none result. The outcome oracle gives the probe result of each numbered
attempt. -/
def retryLoop (outcome : Nat → Except NetInspectError Unit) (max_retries attempt : Nat) :
    RetryRun :=
  if _h : max_retries < attempt then
    { result := none, sleeps := [], attempts := [] }
  else
    match outcome attempt with
    | .ok _ => { result := some (.ok ()), sleeps := [], attempts := [attempt] }
    | .error e =>
      if attempt < max_retries then
        let r := retryLoop outcome max_retries (attempt + 1)
        { result := r.result,
          sleeps := 1000 * attempt :: r.sleeps,
          attempts := attempt :: r.attempts }
      else
        { result := some (.error e), sleeps := [], attempts := [attempt] }
termination_by max_retries + 1 - attempt
decreasing_by omega

/-- test_connectivity_with_retries: run the loop with attempt numbering
starting at 1. -/
def test_connectivity_with_retries (outcome : Nat → Except NetInspectError Unit)
    (max_retries : Nat) : RetryRun :=
  retryLoop outcome max_retries 1

lemma retryLoop_succeeds (outcome : Nat → Except NetInspectError Unit) (max_retries k : Nat)
    (hk : k ≤ max_retries) (hok : outcome k = Except.ok ()) :
    ∀ n a, k - a = n → 1 ≤ a → a ≤ k →
      (∀ i, a ≤ i → i < k → ∃ e, outcome i = Except.error e) →
      retryLoop outcome max_retries a =
        { result := some (Except.ok ()),
          sleeps := (List.range' a n).map fun i => 1000 * i,
          attempts := List.range' a (n + 1) } := by
  intro n
  induction n with
  | zero =>
    intro a h0 h1 h2 _
    have hak : a = k := by omega
    subst hak
    rw [retryLoop.eq_def, dif_neg (by omega), hok]
    simp
  | succ m ih =>
    intro a h0 h1 h2 hfail
    have hak : a < k := by omega
    obtain ⟨e, he⟩ := hfail a (le_refl a) hak
    rw [retryLoop.eq_def, dif_neg (by omega), he]
    dsimp only
    rw [if_pos (by omega)]
    rw [ih (a + 1) (by omega) (by omega) (by omega)
      (fun i hi₁ hi₂ => hfail i (by omega) hi₂)]
    simp [List.range'_succ]

lemma retryLoop_exhausts (outcome : Nat → Except NetInspectError Unit) (max_retries : Nat)
    (e : NetInspectError) (hfinal : outcome max_retries = Except.error e) :
    ∀ n a, max_retries - a = n → 1 ≤ a → a ≤ max_retries →
      (∀ i, a ≤ i → i ≤ max_retries → ∃ err, outcome i = Except.error err) →
      retryLoop outcome max_retries a =
        { result := some (Except.error e),
          sleeps := (List.range' a n).map fun i => 1000 * i,
          attempts := List.range' a (n + 1) } := by
  intro n
  induction n with
  | zero =>
    intro a h0 h1 h2 _
    have hak : a = max_retries := by omega
    subst hak
    rw [retryLoop.eq_def, dif_neg (by omega), hfinal]
    dsimp only
    rw [if_neg (by omega)]
    simp
  | succ m ih =>
    intro a h0 h1 h2 hfail
    have hak : a < max_retries := by omega
    obtain ⟨err, herr⟩ := hfail a (le_refl a) (by omega)
    rw [retryLoop.eq_def, dif_neg (by omega), herr]
    dsimp only
    rw [if_pos (by omega)]
    rw [ih (a + 1) (by omega) (by omega) (by omega)
      (fun i hi₁ hi₂ => hfail i (by omega) hi₂)]
    simp [List.range'_succ]

lemma retryLoop_result_isSome (outcome : Nat → Except NetInspectError Unit)
    (max_retries : Nat) :
    ∀ n a, max_retries - a = n → a ≤ max_retries →
      (retryLoop outcome max_retries a).result.isSome = true := by
  intro n
  induction n with
  | zero =>
    intro a h0 h1
    rw [retryLoop.eq_def, dif_neg (by omega)]
    rcases ho : outcome a with e | u
    · dsimp only
      rw [if_neg (by omega)]
      rfl
    · rfl
  | succ m ih =>
    intro a h0 h1
    rw [retryLoop.eq_def, dif_neg (by omega)]
    rcases ho : outcome a with e | u
    · dsimp only
      rw [if_pos (by omega)]
      exact ih (a + 1) (by omega) (by omega)
    · rfl

/-- C6: with attempt numbering starting at 1, a run whose attempts
1..k-1 fail and whose attempt k (k within budget) succeeds returns
success having slept 1000, 2000, ..., (k-1)*1000 milliseconds between
attempts; a run all of whose max_retries attempts fail returns exactly
the error of the final attempt, having slept 1000, ..., (max_retries-1)*1000
milliseconds. -/
theorem test_connectivity_with_retries_backoff
    (outcome : Nat → Except NetInspectError Unit) (max_retries k : Nat) (e : NetInspectError) :
    (1 ≤ k → k ≤ max_retries → outcome k = Except.ok () →
     (∀ i, 1 ≤ i → i < k → ∃ err, outcome i = Except.error err) →
      test_connectivity_with_retries outcome max_retries =
        { result := some (Except.ok ()),
          sleeps := (List.range' 1 (k - 1)).map fun i => 1000 * i,
          attempts := List.range' 1 k }) ∧
    (1 ≤ max_retries → outcome max_retries = Except.error e →
     (∀ i, 1 ≤ i → i ≤ max_retries → ∃ err, outcome i = Except.error err) →
      test_connectivity_with_retries outcome max_retries =
        { result := some (Except.error e),
          sleeps := (List.range' 1 (max_retries - 1)).map fun i => 1000 * i,
          attempts := List.range' 1 max_retries }) := by
  constructor
  · intro h1 h2 hok hfail
    unfold test_connectivity_with_retries
    have heq := retryLoop_succeeds outcome max_retries k h2 hok (k - 1) 1 rfl (le_refl 1) h1 hfail
    have hk1 : k - 1 + 1 = k := by omega
    rw [heq, hk1]
  · intro h1 hfin hfail
    unfold test_connectivity_with_retries
    have heq := retryLoop_exhausts outcome max_retries e hfin (max_retries - 1) 1 rfl (le_refl 1) h1 hfail
    have hk1 : max_retries - 1 + 1 = max_retries := by omega
    rw [heq, hk1]

/-- A probe outcome failing on attempts 1 and 2 and succeeding from
attempt 3 on. -/
def outcomeFailTwice : Nat → Except NetInspectError Unit :=
  fun i =>
    if i < 3 then Except.error (NetInspectError.NetworkConnectivity "connection refused")
    else Except.ok ()

/-- Witness for C6 at a concrete outcome: failures on attempts 1-2 and
success on attempt 3 with max_attempts 3 yield success after sleeping
1000 then 2000 milliseconds. -/
theorem test_connectivity_with_retries_backoff_witness :
    test_connectivity_with_retries outcomeFailTwice 3 =
      { result := some (Except.ok ()), sleeps := [1000, 2000], attempts := [1, 2, 3] } := by
  have h := (test_connectivity_with_retries_backoff outcomeFailTwice 3 3
      (NetInspectError.Runtime "unused")).1
    (by omega) (by omega) rfl
    (fun i hi₁ hi₂ =>
      ⟨NetInspectError.NetworkConnectivity "connection refused",
       by simp [outcomeFailTwice, hi₂]⟩)
  rw [h]
  rfl

/-! ## Pod IP validation (src/validation.rs, validate_pod_ip, lines 97-118) -/

/-- One dot-free component of the IPv4 regex, i.e. the alternation
25[0-5] | 2[0-4][0-9] | [01]?[0-9][0-9]? matched against the whole
component. The first two alternatives match only three-character
components; for one or two characters the third alternative amounts to
all digit strings (the leading [01]? and trailing [0-9]? being
optional). Char codes: 48-57 are the digits, 53 is the digit 5, 52 the
digit 4. -/
def octetMatch : List Char → Bool
  | [c1] => c1.isDigit
  | [c1, c2] => c1.isDigit && c2.isDigit
  | [c1, c2, c3] =>
      (c1 == '2' && c2 == '5' && c3.isDigit && Nat.ble c3.toNat 53)
   || (c1 == '2' && c2.isDigit && Nat.ble c2.toNat 52 && c3.isDigit)
   || ((c1 == '0' || c1 == '1') && c2.isDigit && c3.isDigit)
  | _ => false

/-- A hexadecimal digit [0-9a-fA-F]. Char codes: 97-102 are a-f, 65-70
are A-F. -/
def isHexDigitChar (c : Char) : Bool :=
  c.isDigit
  || (Nat.ble 97 c.toNat && Nat.ble c.toNat 102)
  || (Nat.ble 65 c.toNat && Nat.ble c.toNat 70)

/-- One colon-free group of the IPv6 regex: 1 to 4 hex digits. -/
def hexGroupMatch (s : List Char) : Bool :=
  Nat.ble 1 s.length && Nat.ble s.length 4 && s.all isHexDigitChar

/-- Validator::validate_pod_ip: empty input is InvalidInput; otherwise
the input must fully match the IPv4 regex (four dot-separated octet
components — the anchored (octet\.){3}octet form is equivalent to the
dot-split having exactly four components each matching, since octets
contain no dot) or the IPv6 regex (eight colon-separated hex groups);
anything else is InvalidInput. The regex-compilation failure arm of the
source cannot fire and is not modelled. -/
def validate_pod_ip (ip : String) : Except NetInspectError Unit :=
  if ip.isEmpty then .error (.InvalidInput "Pod IP cannot be empty")
  else
    let ipv4_ok : Bool :=
      match (ip.splitOn ".").map String.toList with
      | [a, b, c, d] => octetMatch a && octetMatch b && octetMatch c && octetMatch d
      | _ => false
    let ipv6_ok : Bool :=
      let groups := (ip.splitOn ":").map String.toList
      Nat.beq groups.length 8 && groups.all hexGroupMatch
    if ipv4_ok || ipv6_ok then .ok ()
    else .error (.InvalidInput ("Invalid IP address format: " ++ ip))

/-! ## test_pod (src/commands/mod.rs, lines 83-163) -/

/-- PodStatus as consumed by test_pod: the phase and pod_ip fields. -/
structure PodStatus where
  phase : Option String
  pod_ip : Option String
deriving DecidableEq, Repr

/-- A Pod object as consumed by test_pod: only the status is read. -/
structure PodObj where
  status : Option PodStatus
deriving DecidableEq, Repr

/-- The external world of one test_pod run: client construction, the
timeout-wrapped pod fetch, and the per-attempt connectivity outcomes. -/
structure TestPodEnv where
  clientCreate : Except KubeError Unit
  podGetTimedOut : Bool
  podGet : Except KubeError PodObj
  connectivity : Nat → Except NetInspectError Unit

/-- The observable outcome of a test_pod run: the returned value (none
modelling a panic propagated out of the retry loop) and the connectivity
attempts issued. -/
structure TestPodRun where
  result : Option (Except NetInspectError Unit)
  attempts : List Nat
deriving Repr

/-- test_pod: build the client; fetch the pod under a 10s budget (404 is
ResourceNotFound, other fetch errors map through From, deadline elapse
is Timeout); require a status, gate on the phase (Pending, Failed,
Succeeded are ResourceNotFound before any probe; Running and any other
phase proceed); require a pod_ip and validate its syntax; then run the
connectivity tester with 3 attempts and return its outcome. -/
def test_pod (env : TestPodEnv) (pod_name namespace_arg : String) : TestPodRun :=
  match env.clientCreate with
  | .error e => { result := some (.error (NetInspectError.fromKube e)), attempts := [] }
  | .ok _ =>
    if env.podGetTimedOut then
      { result := some (.error (.Timeout "Pod lookup timed out after 10 seconds")),
        attempts := [] }
    else
      match env.podGet with
      | .error (KubeError.Api code msg) =>
        if code = 404 then
          { result := some (.error (.ResourceNotFound
              ("Pod " ++ pod_name ++ " not found in namespace " ++ namespace_arg))),
            attempts := [] }
        else
          { result := some (.error (NetInspectError.fromKube (.Api code msg))), attempts := [] }
      | .error e =>
        { result := some (.error (NetInspectError.fromKube e)), attempts := [] }
      | .ok pod =>
        match pod.status with
        | none =>
          { result := some (.error (.ResourceNotFound
              ("Pod " ++ pod_name ++ " has no status information - it may be initializing"))),
            attempts := [] }
        | some status =>
          match
            (match status.phase with
             | some "Pending" =>
               some (NetInspectError.ResourceNotFound
                 "Pod is pending and has no IP address yet")
             | some "Failed" =>
               some (NetInspectError.ResourceNotFound
                 "Pod is in Failed phase and cannot be tested")
             | some "Succeeded" =>
               some (NetInspectError.ResourceNotFound
                 "Pod is in Succeeded phase and cannot be tested")
             | _ => none)
          with
          | some err => { result := some (.error err), attempts := [] }
          | none =>
            match status.pod_ip with
            | none =>
              { result := some (.error (.ResourceNotFound
                  ("Pod " ++ pod_name ++ " has no IP address assigned - check if it is running"))),
                attempts := [] }
            | some pod_ip =>
              match validate_pod_ip pod_ip with
              | .error e => { result := some (.error e), attempts := [] }
              | .ok _ =>
                let run := test_connectivity_with_retries env.connectivity 3
                { result := run.result, attempts := run.attempts }

/-- C7: whenever the fetched pod carries a status whose phase is
Pending, Failed or Succeeded, test_pod returns a ResourceNotFound-kind
error and issues no connectivity attempt at all. -/
theorem test_pod_gates_on_phase (env : TestPodEnv) (pod : PodObj) (st : PodStatus)
    (pn ns ph : String) :
    env.clientCreate = Except.ok () →
    env.podGetTimedOut = false →
    env.podGet = Except.ok pod →
    pod.status = some st →
    st.phase = some ph →
    (ph = "Pending" ∨ ph = "Failed" ∨ ph = "Succeeded") →
    ∃ msg, test_pod env pn ns =
      { result := some (Except.error (NetInspectError.ResourceNotFound msg)),
        attempts := [] } := by
  intro hc ht hg hst hph hcase
  unfold test_pod
  rw [hc]
  try dsimp only
  rw [ht]
  try dsimp only
  rw [hg]
  try dsimp only
  rw [hst]
  try dsimp only
  rw [hph]
  rcases hcase with rfl | rfl | rfl
  · exact ⟨"Pod is pending and has no IP address yet", rfl⟩
  · exact ⟨"Pod is in Failed phase and cannot be tested", rfl⟩
  · exact ⟨"Pod is in Succeeded phase and cannot be tested", rfl⟩

/-- A pending pod as returned by the fetch. -/
def pendingPod : PodObj :=
  { status := some { phase := some "Pending", pod_ip := none } }

/-- A test_pod environment that fetches a pending pod; its connectivity
oracle would succeed if it were ever consulted. -/
def envPending : TestPodEnv :=
  { clientCreate := .ok (), podGetTimedOut := false,
    podGet := .ok pendingPod, connectivity := fun _ => .ok () }

/-- Witness for C7 at a concrete run: a pod in phase Pending produces a
ResourceNotFound error and an empty list of connectivity attempts. -/
theorem test_pod_gates_on_phase_witness :
    ∃ msg, test_pod envPending "web-0" "default" =
      { result := some (Except.error (NetInspectError.ResourceNotFound msg)),
        attempts := [] } :=
  test_pod_gates_on_phase envPending pendingPod
    { phase := some "Pending", pod_ip := none } "web-0" "default" "Pending"
    rfl rfl rfl rfl rfl (Or.inl rfl)

/-- C10: calling the retry loop with max_retries 0 runs no attempt and
reaches the unreachable panic (a none result); for every max_retries of
at least 1 the loop always returns (the panic branch is dead); and the
only in-repo caller, test_pod, invokes it with the constant 3 and hence
never propagates a panic, for every environment. -/
theorem retry_loop_totality :
    (∀ outcome, (test_connectivity_with_retries outcome 0).result = none) ∧
    (∀ outcome max_retries, 1 ≤ max_retries →
      ((test_connectivity_with_retries outcome max_retries).result).isSome = true) ∧
    (∀ env pn ns, ((test_pod env pn ns).result).isSome = true) := by
  refine ⟨?_, ?_, ?_⟩
  · intro outcome
    rw [test_connectivity_with_retries, retryLoop.eq_def, dif_pos (by omega)]
  · intro outcome max_retries h
    exact retryLoop_result_isSome outcome max_retries (max_retries - 1) 1 rfl h
  · intro env pn ns
    unfold test_pod
    repeat' split
    all_goals first
      | rfl
      | exact retryLoop_result_isSome env.connectivity 3 2 1 rfl (by omega)

/-- Witness for C10 at concrete inputs: with one available attempt that
succeeds, and in a concrete full test_pod run, a value is returned. -/
theorem retry_loop_totality_witness :
    ((test_connectivity_with_retries (fun _ => Except.ok ()) 0).result = none) ∧
    ((test_connectivity_with_retries (fun _ => Except.ok ()) 1).result).isSome = true ∧
    ((test_pod envPending "web-0" "default").result).isSome = true :=
  ⟨retry_loop_totality.1 (fun _ => Except.ok ()),
   retry_loop_totality.2.1 (fun _ => Except.ok ()) 1 (by omega),
   retry_loop_totality.2.2 envPending "web-0" "default"⟩

/-! ## Diagnosis orchestrator (src/commands/mod.rs, diagnose, lines 11-81) -/

/-- The external world of one diagnose run: client construction, the
timeout flags of the three timed steps, the node list fetched inside
detect_cni, the node-count list, and the pod-count call (namespaced or
cluster-wide). -/
structure DiagnoseEnv where
  clientCreate : Except KubeError Unit
  cniTimedOut : Bool
  cniNodesList : Except KubeError (List Node)
  nodeCountTimedOut : Bool
  nodeCountList : Except KubeError Nat
  podCountTimedOut : Bool
  podsNamespaced : String → Except KubeError Nat
  podsAll : Except KubeError Nat

/-- detect_cni (src/commands/mod.rs lines 172-230) as run against a
client: fetch the node list (errors map through From) and scan it. -/
def detect_cni (env : DiagnoseEnv) : Except NetInspectError String :=
  match env.cniNodesList with
  | .error e => .error (NetInspectError.fromKube e)
  | .ok nodes_list => .ok (detect_cni_nodes nodes_list)

/-- check_pods_in_namespace (src/commands/mod.rs lines 297-311): a
namespaced pod list when a namespace was supplied, a cluster-wide one
otherwise; errors map through From. -/
def check_pods_in_namespace (env : DiagnoseEnv) (ns : Option String) :
    Except NetInspectError Nat :=
  match (match ns with | some n => env.podsNamespaced n | none => env.podsAll) with
  | .error e => .error (NetInspectError.fromKube e)
  | .ok k => .ok k

/-- The warnings printed by the pod-count step of diagnose: a timeout or
any error is reported as a warning only (the error text interpolated in
the source is elided here). -/
def podStepWarnings (env : DiagnoseEnv) (ns : Option String) : List String :=
  if env.podCountTimedOut then ["Pod listing timed out after 15 seconds"]
  else
    match check_pods_in_namespace env ns with
    | .ok _ => []
    | .error _ => ["Failed to check pods"]

/-- diagnose: build the client; run CNI detection under a 30s budget
(timeout or error is fatal); count nodes under a 15s budget (timeout or
error fatal, zero nodes only a warning); count pods under a 15s budget,
where every failure including timeout is downgraded to a warning; then
report success. The pair carries the returned value and the warnings
printed. -/
def diagnose (env : DiagnoseEnv) (ns : Option String) :
    Except NetInspectError Unit × List String :=
  match env.clientCreate with
  | .error e => (.error (NetInspectError.fromKube e), [])
  | .ok _ =>
    if env.cniTimedOut then
      (.error (.Timeout "CNI detection timed out after 30 seconds"), [])
    else
      match detect_cni env with
      | .error e => (.error e, [])
      | .ok _cni_type =>
        if env.nodeCountTimedOut then
          (.error (.Timeout "Node listing timed out after 15 seconds"), [])
        else
          match env.nodeCountList with
          | .error e => (.error (NetInspectError.fromKube e), [])
          | .ok node_count =>
            let nodeWarnings : List String :=
              if node_count = 0 then ["No nodes found in cluster"] else []
            (.ok (), nodeWarnings ++ podStepWarnings env ns)

/-- C3: diagnose succeeds exactly when the client is built and the CNI
step (node listing included) and the node-count step neither time out
nor fail; the result component is entirely independent of the pod-count
step, whose failures and timeout only add warnings, for any supplied
namespace or none; and a timeout or error in either of the first two
steps is returned as the corresponding error kind. -/
theorem diagnose_success_iff (env : DiagnoseEnv) (ns : Option String) :
    ((diagnose env ns).1 = Except.ok () ↔
      (isOkE env.clientCreate = true ∧ env.cniTimedOut = false ∧
       isOkE env.cniNodesList = true ∧ env.nodeCountTimedOut = false ∧
       isOkE env.nodeCountList = true)) ∧
    (∀ b f g,
      (diagnose { env with podCountTimedOut := b, podsNamespaced := f, podsAll := g } ns).1 =
        (diagnose env ns).1) ∧
    (isOkE env.clientCreate = true → env.cniTimedOut = true →
      (diagnose env ns).1 =
        Except.error (NetInspectError.Timeout "CNI detection timed out after 30 seconds")) ∧
    (∀ e, isOkE env.clientCreate = true → env.cniTimedOut = false →
      env.cniNodesList = Except.error e →
      (diagnose env ns).1 = Except.error (NetInspectError.fromKube e)) ∧
    (isOkE env.clientCreate = true → env.cniTimedOut = false →
      isOkE env.cniNodesList = true → env.nodeCountTimedOut = true →
      (diagnose env ns).1 =
        Except.error (NetInspectError.Timeout "Node listing timed out after 15 seconds")) ∧
    (∀ e, isOkE env.clientCreate = true → env.cniTimedOut = false →
      isOkE env.cniNodesList = true → env.nodeCountTimedOut = false →
      env.nodeCountList = Except.error e →
      (diagnose env ns).1 = Except.error (NetInspectError.fromKube e)) := by
  unfold diagnose detect_cni isOkE
  rcases env with ⟨cc, cniTO, cniL, ncTO, ncL, pTO, pNs, pAll⟩
  dsimp only
  rcases cc with ce | cu
  · simp
  · rcases cniTO with _ | _
    · rcases cniL with cniE | cniNodes
      · simp
      · rcases ncTO with _ | _
        · rcases ncL with ncE | ncK
          · simp
          · simp
        · simp
    · simp

/-- A diagnose environment in which everything succeeds. -/
def envDiagOk : DiagnoseEnv :=
  { clientCreate := .ok (), cniTimedOut := false, cniNodesList := .ok [nodeCalico],
    nodeCountTimedOut := false, nodeCountList := .ok 1,
    podCountTimedOut := false, podsNamespaced := fun _ => .ok 0, podsAll := .ok 0 }

/-- Witness for C3 at concrete environments: a CNI-step timeout is fatal
with the Timeout kind, a node-count list error is fatal with its mapped
kind, and a pod-step timeout leaves the result of a successful run
untouched. -/
theorem diagnose_success_iff_witness :
    ((diagnose { envDiagOk with cniTimedOut := true } none).1 =
      Except.error (NetInspectError.Timeout "CNI detection timed out after 30 seconds")) ∧
    ((diagnose { envDiagOk with nodeCountList := .error (.Api 500 "boom") } none).1 =
      Except.error (NetInspectError.fromKube (KubeError.Api 500 "boom"))) ∧
    ((diagnose { envDiagOk with podCountTimedOut := true } none).1 =
      (diagnose envDiagOk none).1) :=
  ⟨(diagnose_success_iff { envDiagOk with cniTimedOut := true } none).2.2.1 rfl rfl,
   (diagnose_success_iff { envDiagOk with nodeCountList := .error (.Api 500 "boom") } none).2.2.2.2.2
     (KubeError.Api 500 "boom") rfl rfl rfl rfl rfl,
   (diagnose_success_iff envDiagOk none).2.1 true (fun _ => Except.ok 0) (Except.ok 0)⟩

/-! ## exit codes (C8) -/

/-- C8: exit_code is a total pure function on the closed set of error
kinds mapping PermissionDenied to 5; ResourceNotFound, Timeout and
NetworkConnectivity to 4; KubernetesConnection to 3; Configuration and
InvalidInput to 2; Runtime to 1. -/
theorem exit_code_table (s : String) :
    (NetInspectError.PermissionDenied s).exit_code = 5 ∧
    (NetInspectError.ResourceNotFound s).exit_code = 4 ∧
    (NetInspectError.Timeout s).exit_code = 4 ∧
    (NetInspectError.NetworkConnectivity s).exit_code = 4 ∧
    (NetInspectError.KubernetesConnection s).exit_code = 3 ∧
    (NetInspectError.Configuration s).exit_code = 2 ∧
    (NetInspectError.InvalidInput s).exit_code = 2 ∧
    (NetInspectError.Runtime s).exit_code = 1 :=
  ⟨rfl, rfl, rfl, rfl, rfl, rfl, rfl, rfl⟩

end NetInspect
